import Mathlib

/-!
Verification of the kdbpy process/session-management core (`kdbpy/kdb.py`)
against its natural-language specification.

The Python module is shallowly embedded: the `Credentials` value object with
its shuffled candidate-port iterator, the `Q` process supervisor with its
process-wide registry, the `KDB` connection manager with temporal result
coercion, and the `KQ` session coordinator with its port-conflict retry loop
and idempotent `read_kdb` loading.  Mutation is modelled by explicit state
passing; Python exceptions by `Except`; the nondeterministic inputs
(`random.shuffle`, `getpass.getuser()`, the local hostname, the set of
processes bound to ports) are parameters of the embedded operations.
-/

/-- Python exceptions raised by the embedded code.  `portsExhausted` models the
`StopIteration` escaping the drained port iterator (the condition the spec
names `PortsExhausted`); `attributeError` models Python `AttributeError`
(e.g. `None.sync`, or a missing `ports` attribute); `notStarted` is the
condition the spec mandates for operations on a stopped session (the source
never raises it — see the C4 analysis). -/
inductive KdbErr
  | portInUse
  | portIsFixed
  | portsExhausted
  | attributeError
  | notStarted
  deriving DecidableEq, Repr

/-- the module-wide constant `DEFAULT_PORT_RANGE = (47823, 47923)`. -/
def DEFAULT_PORT_RANGE : Nat × Nat := (47823, 47923)

/-- `list(range(*DEFAULT_PORT_RANGE))`, the candidate ports `[low, high)`. -/
def portRangeList : List Nat :=
  List.range' DEFAULT_PORT_RANGE.1 (DEFAULT_PORT_RANGE.2 - DEFAULT_PORT_RANGE.1)

/-- the `Credentials` object.  The five `__slots__` fields are `host`, `port`,
`username`, `password`, `is_fixed_port`.  The shuffled candidate-port iterator
`self.ports` is not a slot: it lives in the instance `__dict__` (the
`PrettyMixin` base class declares no `__slots__`), and is absent (`none`) on
fixed-port instances.  The iterator is modelled by the list of its remaining
elements. -/
structure Credentials where
  host : String
  port : Nat
  username : String
  password : String
  is_fixed_port : Bool
  ports : Option (List Nat)
  deriving DecidableEq, Repr

/-- `Credentials(host, port, user, pw)` with an explicit port:
`is_fixed_port` is true and no `ports` iterator is created. -/
def Credentials.mkFixed (host : String) (port : Nat) (username password : String) :
    Credentials :=
  { host := host, port := port, username := username, password := password,
    is_fixed_port := true, ports := none }

/-- `Credentials(host, None, user, pw)`: `self.ports = self.get_ports()` is the
shuffled candidate list (`shuffled` is `random.shuffle` applied to
`portRangeList`, a parameter here), and `self.port = next(self.get_port())`
pops its head.  `none` models the `StopIteration` a pooled construction over an
empty candidate list would raise. -/
def Credentials.mkPooled (host username password : String) (shuffled : List Nat) :
    Option Credentials :=
  match shuffled with
  | [] => none
  | p :: rest =>
      some { host := host, port := p, username := username, password := password,
             is_fixed_port := false, ports := some rest }

/-- `next(self.get_port())` — the spec's `allocate_next_port()`.  The generator
body raises `PortIsFixed` on a fixed-port instance, otherwise pops
`next(self.ports)` into `self.port` and yields it; an exhausted iterator
raises `StopIteration` (the spec's `PortsExhausted`). -/
def Credentials.get_port (c : Credentials) : Except KdbErr (Nat × Credentials) :=
  if c.is_fixed_port then .error .portIsFixed
  else
    match c.ports with
    | none => .error .attributeError
    | some [] => .error .portsExhausted
    | some (p :: rest) => .ok (p, { c with port := p, ports := some rest })

/-- the tuple `hash(...)` is taken over in `__hash__`: exactly the five
`__slots__` fields, in slot order. -/
def Credentials.slotTuple (c : Credentials) : String × Nat × String × String × Bool :=
  (c.host, c.port, c.username, c.password, c.is_fixed_port)

/-- `__eq__`: `hash(self) == hash(other)` where `__hash__` hashes the 5-tuple
of slots.  Hash equality is modelled as equality of the hashed tuples
(CPython tuple hashing is deterministic and collision-free on the values
compared here, and distinguishes `True` from `False`). -/
def Credentials.eqPy (a b : Credentials) : Bool :=
  decide (a.slotTuple = b.slotTuple)

/-- `CopyErr`: exceptions `__copy__` can raise. -/
inductive CopyErr
  | stopIteration
  | attributeError
  deriving DecidableEq, Repr

/-- `__copy__` (the spec's `duplicate()`).  `new_self = type(self)()` builds a
fresh default instance — consuming the head of its own fresh shuffled pool
`freshPool` and taking the default `hostname` / `getpass.getuser()` / `''`
values, passed as parameters.  `new_self.__dict__.update(self.__dict__)`
copies only the `ports` entry (the five value fields are slots, not `__dict__`
entries, so they keep their defaults).  `new_self.ports = iter(list(self.ports))`
then drains the original's iterator into a snapshot list for the copy,
leaving the original exhausted; on a fixed-port original `self.ports` is
absent and the attribute access raises `AttributeError`.
Returns (the copy, the original after the call). -/
def Credentials.dunder_copy (hostname username : String) (freshPool : List Nat)
    (c : Credentials) : Except CopyErr (Credentials × Credentials) :=
  match Credentials.mkPooled hostname username "" freshPool with
  | none => .error .stopIteration
  | some fresh =>
      match c.ports with
      | none => .error .attributeError
      | some remaining =>
          .ok ({ fresh with ports := some remaining }, { c with ports := some [] })

/-- `n` consecutive successful `allocate_next_port()` calls on one instance,
returning the allocated ports in order; `none` when some call raises. -/
def allocN : Nat → Credentials → Option (List Nat × Credentials)
  | 0, c => some ([], c)
  | n + 1, c =>
      match c.get_port with
      | .error _ => none
      | .ok (p, c') => (allocN n c').map (fun r => (p :: r.1, r.2))

/-- `n` `allocate_next_port()` attempts, recording each outcome; a failed call
leaves the instance untouched (the `raise` precedes any assignment). -/
def attemptPorts : Nat → Credentials → Credentials × List (Except KdbErr Nat)
  | 0, c => (c, [])
  | n + 1, c =>
      match c.get_port with
      | .error e =>
          let r := attemptPorts n c
          (r.1, .error e :: r.2)
      | .ok (p, c1) =>
          let r := attemptPorts n c1
          (r.1, .ok p :: r.2)

theorem allocN_pooled (n : Nat) :
    ∀ (l : List Nat) (c : Credentials), c.is_fixed_port = false → c.ports = some l →
      ∀ ps c', allocN n c = some (ps, c') → ps = l.take n := by
  induction n with
  | zero =>
      intro l c _ _ ps c' h
      simp [allocN] at h
      simp [h.1]
  | succ n ih =>
      intro l c hfix hports ps c' h
      rw [allocN] at h
      rcases l with _ | ⟨p, rest⟩
      · simp [Credentials.get_port, hfix, hports] at h
      · simp only [Credentials.get_port, hfix, hports, Bool.false_eq_true, if_false] at h
        rw [Option.map_eq_some'] at h
        obtain ⟨r, hr, hps⟩ := h
        have hr1 : r.1 = rest.take n := ih rest _ rfl rfl r.1 r.2 hr
        cases hps
        simp [List.take_succ_cons, hr1]

/-- C6: for every non-fixed Credentials (built from a shuffled permutation of
the candidate range), every port returned by `allocate_next_port()` lies in
the configured range `[low, high)` of `DEFAULT_PORT_RANGE`, and no two calls
on the same instance return the same port before the pool is exhausted. -/
theorem allocate_ports_in_range_nodup (host username password : String)
    (shuffled : List Nat) (c : Credentials)
    (hperm : shuffled.Perm portRangeList)
    (hc : Credentials.mkPooled host username password shuffled = some c)
    (n : Nat) (ps : List Nat) (c' : Credentials)
    (h : allocN n c = some (ps, c')) :
    (∀ p ∈ ps, DEFAULT_PORT_RANGE.1 ≤ p ∧ p < DEFAULT_PORT_RANGE.2) ∧ ps.Nodup := by
  rcases shuffled with _ | ⟨p0, rest⟩
  · simp [Credentials.mkPooled] at hc
  · simp only [Credentials.mkPooled, Option.some.injEq] at hc
    have hfix : c.is_fixed_port = false := by rw [← hc]
    have hports : c.ports = some rest := by rw [← hc]
    have hps : ps = rest.take n := allocN_pooled n rest c hfix hports ps c' h
    have hsub : ps.Sublist (p0 :: rest) := by
      rw [hps]
      exact (List.take_sublist n rest).trans (List.sublist_cons_self p0 rest)
    have hnodup : (p0 :: rest).Nodup := by
      rw [hperm.nodup_iff]
      unfold portRangeList
      exact List.nodup_range' _ _
    constructor
    · intro p hp
      have : p ∈ portRangeList := hperm.mem_iff.mp (hsub.mem hp)
      simpa [portRangeList, DEFAULT_PORT_RANGE] using List.mem_range'_1.mp this
    · exact hnodup.sublist hsub

/-- C6 witness: the identity shuffle of the candidate range, two allocations. -/
theorem allocate_ports_in_range_nodup_witness :
    (∀ p ∈ ([47824, 47825] : List Nat),
        DEFAULT_PORT_RANGE.1 ≤ p ∧ p < DEFAULT_PORT_RANGE.2) ∧
      ([47824, 47825] : List Nat).Nodup :=
  allocate_ports_in_range_nodup "localhost" "u" "" portRangeList
    { host := "localhost", port := 47823, username := "u", password := "",
      is_fixed_port := false, ports := some (List.range' 47824 99) }
    (List.Perm.refl _) rfl 2 [47824, 47825]
    { host := "localhost", port := 47825, username := "u", password := "",
      is_fixed_port := false, ports := some (List.range' 47826 97) }
    rfl

/-- C7: on a fixed-port instance every `allocate_next_port()` attempt fails
with `PortIsFixed`, however many times it is attempted, and the instance —
in particular its `port` field — never changes. -/
theorem fixed_port_allocate_always_fails (host : String) (port : Nat)
    (username password : String) (n : Nat) :
    attemptPorts n (Credentials.mkFixed host port username password) =
      (Credentials.mkFixed host port username password,
       List.replicate n (.error .portIsFixed)) ∧
    (Credentials.mkFixed host port username password).port = port := by
  refine ⟨?_, rfl⟩
  induction n with
  | zero => simp [attemptPorts]
  | succ n ih =>
      rw [attemptPorts]
      rw [show (Credentials.mkFixed host port username password).get_port =
            .error .portIsFixed from rfl]
      simp [ih, List.replicate_succ]

/-- C7 witness: three attempts on a concrete fixed-port instance. -/
theorem fixed_port_allocate_always_fails_witness :
    attemptPorts 3 (Credentials.mkFixed "h" 5042 "u" "pw") =
      (Credentials.mkFixed "h" 5042 "u" "pw",
       List.replicate 3 (.error .portIsFixed)) ∧
    (Credentials.mkFixed "h" 5042 "u" "pw").port = 5042 :=
  fixed_port_allocate_always_fails "h" 5042 "u" "pw" 3

/-- C3 counterexample: two Credentials whose four fields host, port, username
and password all match are nevertheless unequal, because `__hash__` (and hence
`__eq__`) also folds in the fifth slot `is_fixed_port`. -/
theorem credentials_eq_four_field_counterexample :
    ((Credentials.mkFixed "localhost" 47823 "u" "").host =
        (⟨"localhost", 47823, "u", "", false, some []⟩ : Credentials).host ∧
      (Credentials.mkFixed "localhost" 47823 "u" "").port =
        (⟨"localhost", 47823, "u", "", false, some []⟩ : Credentials).port ∧
      (Credentials.mkFixed "localhost" 47823 "u" "").username =
        (⟨"localhost", 47823, "u", "", false, some []⟩ : Credentials).username ∧
      (Credentials.mkFixed "localhost" 47823 "u" "").password =
        (⟨"localhost", 47823, "u", "", false, some []⟩ : Credentials).password) ∧
    Credentials.eqPy (Credentials.mkFixed "localhost" 47823 "u" "")
        (⟨"localhost", 47823, "u", "", false, some []⟩ : Credentials) = false := by
  refine ⟨⟨rfl, rfl, rfl, rfl⟩, ?_⟩
  decide

/-- C3 amended: two Credentials are equal exactly when all five slot fields —
host, port, username, password and `is_fixed_port` — match; no other
attribute (in particular not the remaining `ports` pool) influences
equality. -/
theorem credentials_eq_five_fields (a b : Credentials) :
    Credentials.eqPy a b = true ↔
      (a.host = b.host ∧ a.port = b.port ∧ a.username = b.username ∧
       a.password = b.password ∧ a.is_fixed_port = b.is_fixed_port) := by
  simp [Credentials.eqPy, Credentials.slotTuple, Prod.ext_iff]

/-- C2: evaluation of `__copy__` on a concrete pooled instance.  The original
`c` has host `"remote"`, port 47824, password `"pw"` and remaining pool
`[47825, 47826]`; the defaults are hostname `"localhost"`, user `"u"` and a
fresh shuffled pool starting at 47830.  The copy comes back with the *default*
host, port and password (47830 ≠ 47824, `""` ≠ `"pw"`, `"localhost"` ≠
`"remote"`) — only the pool snapshot is taken from `c` — and the original's
own remaining pool is drained to `[]` by `list(self.ports)`. -/
theorem credentials_copy_eval :
    Credentials.dunder_copy "localhost" "u" [47830, 47831]
        (⟨"remote", 47824, "u", "pw", false, some [47825, 47826]⟩ : Credentials) =
      .ok (⟨"localhost", 47830, "u", "", false, some [47825, 47826]⟩,
           ⟨"remote", 47824, "u", "pw", false, some []⟩) ∧
    (47830 : Nat) ≠ 47824 ∧ ("" : String) ≠ "pw" ∧ ("localhost" : String) ≠ "remote" := by
  refine ⟨rfl, ?_, ?_, ?_⟩ <;> decide

/-- raw payload of a qPython `QTemporal` wrapper: a numpy `datetime64`
(absolute-time tick count) or `timedelta64` (interval tick count). -/
inductive Raw
  | dt64 (ticks : Int)
  | td64 (ticks : Int)
  deriving DecidableEq, Repr

/-- values flowing through `KDB.eval`: the server's raw responses (a
`QTemporal` temporal scalar, or a plain scalar / array / table) together with
the host-side coerced forms `pd.Timestamp` / `pd.Timedelta`. -/
inductive Val
  | qtemporal (raw : Raw)
  | timestamp (ticks : Int)
  | timedelta (ticks : Int)
  | scalar (v : Int)
  | arr (vs : List Int)
  | table (cols : List String) (rows : List (List Int))
  deriving DecidableEq, Repr

/-- the coercion at the tail of `KDB.eval`: a `QTemporal` result is unwrapped
and, if the raw value is a `datetime64`, becomes `pd.Timestamp(raw)`; if a
`timedelta64`, becomes `pd.Timedelta(raw)` — both carry the tick count
unchanged.  Every other result is returned as is. -/
def coerceResult : Val → Val
  | .qtemporal (.dt64 t) => .timestamp t
  | .qtemporal (.td64 t) => .timedelta t
  | v => v

/-- argument of `KDB.eval`: either a q expression string sent through
`self.q.sync`, or a Python callable invoked locally. -/
inductive PyExpr
  | qexpr (s : String)
  | callable (f : Unit → Val)

/-- `KDB.eval(expr)`.  `server` models the running q server's `sync`
responses; `conn` is whether `self.q` is a live connection (`KDB.stop()` sets
`self.q = None`).  A callable `expr` is invoked locally without touching the
connection; a string goes through `self.q.sync`, which on `self.q = None` is
Python `None.sync` — an `AttributeError`, not a `NotStarted` condition.  The
result of either path is then temporally coerced. -/
def KDB.eval (server : String → Val) (conn : Bool) (expr : PyExpr) :
    Except KdbErr Val :=
  match expr with
  | .callable f => .ok (coerceResult (f ()))
  | .qexpr s => if conn then .ok (coerceResult (server s)) else .error .attributeError

/-- C4: evaluation on a stopped session.  With `self.q = None` (after
`KDB.stop()`), `eval` of a string expression fails with `AttributeError` —
which is not the `NotStarted` condition the spec mandates — and `eval` of a
callable silently succeeds with the local result instead of failing at all. -/
theorem kdb_eval_stopped_attribute_error :
    KDB.eval (fun _ => .scalar 0) false (.qexpr "1+1") = .error .attributeError ∧
    (Except.error .attributeError : Except KdbErr Val) ≠ .error .notStarted ∧
    KDB.eval (fun _ => .scalar 0) false (.callable fun _ => .scalar 7) =
      .ok (.scalar 7) := by
  exact ⟨rfl, fun h => KdbErr.noConfusion (Except.error.inj h), rfl⟩

/-- C9: result coercion in `KDB.eval` on a live connection.  A temporal scalar
carrying an absolute-time (`datetime64`) tick count maps to the host
`pd.Timestamp` with the same tick count; an interval (`timedelta64`) tick
count maps to `pd.Timedelta` with the same tick count (sign and magnitude
preserved); every non-temporal result — scalar, array or table — is returned
unchanged. -/
theorem eval_temporal_coercion (server : String → Val) (s : String) (t : Int) :
    (server s = .qtemporal (.dt64 t) →
        KDB.eval server true (.qexpr s) = .ok (.timestamp t)) ∧
    (server s = .qtemporal (.td64 t) →
        KDB.eval server true (.qexpr s) = .ok (.timedelta t)) ∧
    ((∀ r, server s ≠ .qtemporal r) →
        KDB.eval server true (.qexpr s) = .ok (server s)) := by
  refine ⟨fun h => ?_, fun h => ?_, fun h => ?_⟩
  · simp [KDB.eval, h, coerceResult]
  · simp [KDB.eval, h, coerceResult]
  · simp only [KDB.eval, if_true]
    cases hv : server s with
    | qtemporal r => exact absurd hv (h r)
    | timestamp t => rfl
    | timedelta t => rfl
    | scalar v => rfl
    | arr vs => rfl
    | table c r => rfl

/-- C9 witness: a timestamp tick count, a negative interval tick count, and a
plain scalar, each at a concrete server. -/
theorem eval_temporal_coercion_witness :
    KDB.eval (fun _ => .qtemporal (.dt64 730)) true (.qexpr "x") =
      .ok (.timestamp 730) ∧
    KDB.eval (fun _ => .qtemporal (.td64 (-3))) true (.qexpr "y") =
      .ok (.timedelta (-3)) ∧
    KDB.eval (fun _ => .scalar 42) true (.qexpr "z") = .ok (.scalar 42) :=
  ⟨(eval_temporal_coercion (fun _ => .qtemporal (.dt64 730)) "x" 730).1 rfl,
   (eval_temporal_coercion (fun _ => .qtemporal (.td64 (-3))) "y" (-3)).2.1 rfl,
   (eval_temporal_coercion (fun _ => .scalar 42) "z" 0).2.2
     (fun _ h => Val.noConfusion h)⟩

theorem get_port_poolLen_lt (c : Credentials) (pc : Nat × Credentials)
    (h : c.get_port = .ok pc) :
    (pc.2.ports.getD []).length < (c.ports.getD []).length := by
  unfold Credentials.get_port at h
  split at h
  · exact Except.noConfusion h
  · split at h
    · exact Except.noConfusion h
    · exact Except.noConfusion h
    · rename_i p rest heq
      cases h
      simp [heq]

theorem get_port_ok_fields (c : Credentials) (p : Nat) (c' : Credentials)
    (h : c.get_port = .ok (p, c')) :
    c'.port = p ∧ c'.is_fixed_port = c.is_fixed_port := by
  unfold Credentials.get_port at h
  split at h
  · exact Except.noConfusion h
  · split at h
    · exact Except.noConfusion h
    · exact Except.noConfusion h
    · cases h
      exact ⟨rfl, rfl⟩

/-- the `while True` retry loop inside `KQ.start`: attempt `self.q.start` —
`busy p` says whether the supervisor finds the port `p` already bound and
raises `PortInUse` — and on `PortInUse` either fail with `PortIsFixed` (fixed
credentials, via the `CredsMixin` delegation `self.is_fixed_port`) or pop
`next(self.credentials.get_port())` and retry.  An exhausted pool propagates
out of the loop (the allocation happens inside the `except PortInUse` handler,
so the loop's own `except StopIteration` arm never sees it). -/
def kqStart (busy : Nat → Bool) (c : Credentials) : Except KdbErr Credentials :=
  if busy c.port then
    if c.is_fixed_port then .error .portIsFixed
    else
      match h : c.get_port with
      | .error e => .error e
      | .ok pc => kqStart busy pc.2
  else .ok c
termination_by (c.ports.getD []).length
decreasing_by exact get_port_poolLen_lt c pc h

/-- the `KQ` session coordinator: the shared `Credentials` object, the
`_loaded` set of normalized script paths, and whether `self.kdb.q` holds a
live connection. -/
structure KQ where
  credentials : Credentials
  loaded : List String
  conn : Bool
  deriving DecidableEq, Repr

/-- `KQ.__init__` hands its single Credentials object to `Q(credentials=...)`;
the supervisor's credentials are the coordinator's object itself. -/
def KQ.q_credentials (kq : KQ) : Credentials := kq.credentials

/-- the same shared object handed to `KDB(credentials=...)`. -/
def KQ.kdb_credentials (kq : KQ) : Credentials := kq.credentials

/-- `KQ.start`: run the port-conflict retry loop, then `self.kdb.start()`
(which opens the client connection). -/
def KQ.start (busy : Nat → Bool) (kq : KQ) : Except KdbErr KQ :=
  match kqStart busy kq.credentials with
  | .error e => .error e
  | .ok c' => .ok { kq with credentials := c', conn := true }

/-- C1: when the supervisor's start hits a port conflict (`busy` reports the
current port bound), `KQ.start` on fixed-port credentials fails immediately
with `PortIsFixed`; on pooled credentials a next candidate port is allocated —
the resulting credentials, being the one shared object, are what both the
supervisor and the connection manager see — and the supervisor start is
retried; and with an empty candidate pool the whole start fails with the
pool-exhaustion condition. -/
theorem kq_start_port_conflict_retry (busy : Nat → Bool) (kq : KQ)
    (hbusy : busy kq.credentials.port = true) :
    (kq.credentials.is_fixed_port = true →
        KQ.start busy kq = .error .portIsFixed) ∧
    (kq.credentials.is_fixed_port = false →
      ∀ p c', kq.credentials.get_port = .ok (p, c') →
        kqStart busy kq.credentials = kqStart busy c' ∧
        c'.port = p ∧
        KQ.q_credentials { kq with credentials := c' } = c' ∧
        KQ.kdb_credentials { kq with credentials := c' } = c') ∧
    (kq.credentials.is_fixed_port = false → kq.credentials.ports = some [] →
        KQ.start busy kq = .error .portsExhausted) := by
  refine ⟨fun hfix => ?_, fun hfix p c' h => ?_, fun hfix hempty => ?_⟩
  · unfold KQ.start
    rw [kqStart]
    simp [hbusy, hfix]
  · refine ⟨?_, (get_port_ok_fields kq.credentials p c' h).1, rfl, rfl⟩
    conv_lhs => rw [kqStart]
    simp only [hbusy, hfix, Bool.false_eq_true, if_false, if_true]
    split
    · rename_i e heq
      rw [h] at heq
      exact Except.noConfusion heq
    · rename_i pc heq
      rw [h] at heq
      rw [← Except.ok.inj heq]
  · have hget : kq.credentials.get_port = .error .portsExhausted := by
      unfold Credentials.get_port
      simp [hfix, hempty]
    have hloop : kqStart busy kq.credentials = .error .portsExhausted := by
      rw [kqStart]
      simp only [hbusy, hfix, Bool.false_eq_true, if_false, if_true]
      split
      · rename_i e heq
        rw [hget] at heq
        rw [← Except.error.inj heq]
      · rename_i pc heq
        rw [hget] at heq
        exact Except.noConfusion heq
    unfold KQ.start
    rw [hloop]

/-- C1 witness: a fixed-port session on a busy port, one retry step of a
pooled session, and a pooled session with a drained pool. -/
theorem kq_start_port_conflict_retry_witness :
    KQ.start (fun _ => true)
        ⟨Credentials.mkFixed "h" 7 "u" "", [], false⟩ = .error .portIsFixed ∧
    kqStart (fun _ => true) (⟨"h", 4, "u", "", false, some [5, 6]⟩ : Credentials) =
      kqStart (fun _ => true) (⟨"h", 5, "u", "", false, some [6]⟩ : Credentials) ∧
    KQ.start (fun _ => true)
        ⟨⟨"h", 4, "u", "", false, some []⟩, [], false⟩ = .error .portsExhausted :=
  ⟨(kq_start_port_conflict_retry (fun _ => true)
      ⟨Credentials.mkFixed "h" 7 "u" "", [], false⟩ rfl).1 rfl,
   ((kq_start_port_conflict_retry (fun _ => true)
      ⟨⟨"h", 4, "u", "", false, some [5, 6]⟩, [], false⟩ rfl).2.1 rfl 5
      (⟨"h", 5, "u", "", false, some [6]⟩ : Credentials) rfl).1,
   (kq_start_port_conflict_retry (fun _ => true)
      ⟨⟨"h", 4, "u", "", false, some []⟩, [], false⟩ rfl).2.2 rfl rfl⟩

/-- `KQ.read_kdb(filename)`.  `canon` models `normpath(os.path.abspath(·))` —
the normalization to an absolute canonical form (`kdbpy.util.normpath` is not
among the sources, so the composite map is a parameter).  `server` models
`self.eval` of the generated load directive on the live connection.  A
canonical path already in `self._loaded` evaluates nothing and returns
`None`; otherwise the `\l` directive is issued and the path recorded; with no
live connection the delegated `eval` raises (see the C4 analysis).  Returns
(the value returned, the directives issued, the session afterwards). -/
def KQ.read_kdb (canon : String → String) (server : String → Option Val)
    (kq : KQ) (filename : String) :
    Except KdbErr (Option Val × List String × KQ) :=
  if canon filename ∈ kq.loaded then .ok (none, [], kq)
  else
    if kq.conn then
      .ok (server ("\\l " ++ canon filename), ["\\l " ++ canon filename],
           { kq with loaded := canon filename :: kq.loaded })
    else .error .attributeError

/-- C5: on a running session that has not yet loaded the file, two `read_kdb`
calls whose paths normalize to the same absolute canonical form issue the
server load directive exactly once — by the first call — and the second call
is a no-op that returns none and leaves the session unchanged. -/
theorem read_kdb_idempotent (canon : String → String) (server : String → Option Val)
    (kq : KQ) (p1 p2 : String) (r1 : Option Val) (d1 : List String) (kq1 : KQ)
    (hcanon : canon p1 = canon p2)
    (hfresh : canon p1 ∉ kq.loaded) (hconn : kq.conn = true)
    (h1 : KQ.read_kdb canon server kq p1 = .ok (r1, d1, kq1)) :
    d1 = ["\\l " ++ canon p1] ∧
    KQ.read_kdb canon server kq1 p2 = .ok (none, [], kq1) := by
  unfold KQ.read_kdb at h1 ⊢
  rw [if_neg hfresh, if_pos hconn] at h1
  simp only [Except.ok.injEq, Prod.mk.injEq] at h1
  obtain ⟨hr, hd, hkq⟩ := h1
  subst hd
  subst hkq
  refine ⟨rfl, ?_⟩
  have hmem : canon p2 ∈ canon p1 :: kq.loaded := by
    rw [← hcanon]
    exact List.mem_cons_self _ _
  rw [if_pos hmem]

/-- C5 witness: loading the same path twice on a running session. -/
theorem read_kdb_idempotent_witness :
    (["\\l /a.q"] : List String) = ["\\l " ++ (fun s => s) "/a.q"] ∧
    KQ.read_kdb (fun s => s) (fun _ => none)
        ⟨Credentials.mkFixed "h" 1 "u" "", ["/a.q"], true⟩ "/a.q" =
      .ok (none, [], ⟨Credentials.mkFixed "h" 1 "u" "", ["/a.q"], true⟩) := by
  have h := read_kdb_idempotent (fun s => s) (fun _ => none)
    ⟨Credentials.mkFixed "h" 1 "u" "", [], true⟩ "/a.q" "/a.q" none ["\\l /a.q"]
    ⟨Credentials.mkFixed "h" 1 "u" "", ["/a.q"], true⟩ rfl (by simp) rfl rfl
  exact ⟨h.1.symm ▸ rfl, h.2⟩

/-- psutil exceptions observed by `stop`. -/
inductive PsErr
  | noSuchProcess
  deriving DecidableEq, Repr

/-- the process environment a `stop` observes: `running` is
`find_running_process` (some q process bound to the given port), `children`
enumerates a process's direct children (`NoSuchProcess` when it exited
first), `aliveAtKill` is whether a pid is still alive when `terminate()`
reaches it. -/
structure ProcEnv where
  running : Nat → Option Nat
  children : Nat → Except PsErr (List Nat)
  aliveAtKill : Nat → Bool

/-- the process-wide `Q.processes` registry lookup, `self.processes.get(...)`:
a dict keyed by Credentials, so keyed through `__hash__`/`__eq__` (`eqPy`). -/
def registryLookup (reg : List (Credentials × Nat)) (c : Credentials) : Option Nat :=
  (reg.find? (fun e => Credentials.eqPy e.1 c)).map (fun e => e.2)

/-- `del self.processes[self.credentials]`, with its `except KeyError: pass`. -/
def registryRemove (reg : List (Credentials × Nat)) (c : Credentials) :
    List (Credentials × Nat) :=
  reg.filter (fun e => ! Credentials.eqPy e.1 c)

/-- Python `self.process or self.find_running_process()`. -/
def ownedOrDiscovered (env : ProcEnv) (reg : List (Credentials × Nat))
    (c : Credentials) : Option Nat :=
  match registryLookup reg c with
  | some pid => some pid
  | none => env.running c.port

/-- `proc.terminate()`: raises `NoSuchProcess` when the process already
exited between detection and kill. -/
def terminate (env : ProcEnv) (pid : Nat) : Except PsErr Unit :=
  if env.aliveAtKill pid then .ok () else .error .noSuchProcess

/-- `killp`: `try: proc.terminate() except psutil.NoSuchProcess: pass`. -/
def killp (env : ProcEnv) (pid : Nat) : Unit :=
  match terminate env pid with
  | .ok u => u
  | .error .noSuchProcess => ()

/-- `Q.stop`: locate the owned-or-discovered process for the port; if none,
report `False` and change nothing.  Otherwise kill its children first (the
enumeration's `NoSuchProcess` is swallowed), kill the process (`killp`
swallows `NoSuchProcess`), drop the registry entry (`KeyError` swallowed) and
report `True`.  Returns (whether a process was stopped, the registry
afterwards). -/
def qStop (env : ProcEnv) (reg : List (Credentials × Nat)) (c : Credentials) :
    Bool × List (Credentials × Nat) :=
  match ownedOrDiscovered env reg c with
  | none => (false, reg)
  | some pid =>
      let _ : List Unit :=
        match env.children pid with
        | .ok kids => kids.map (killp env)
        | .error .noSuchProcess => []
      let _ : Unit := killp env pid
      (true, registryRemove reg c)

/-- `KDB.stop`: close and clear the connection if one is present; the guard
makes a `None` connection a no-op, not an error. -/
def kdbStop (conn : Bool) : Bool := false

/-- `KQ.stop`: `self.kdb.stop()` then `self.q.stop()` (whose boolean result
`KQ.stop` itself discards).  Returns (the session, the supervisor's
indicator, the registry afterwards). -/
def KQ.stop (env : ProcEnv) (reg : List (Credentials × Nat)) (kq : KQ) :
    KQ × Bool × List (Credentials × Nat) :=
  let r := qStop env reg kq.credentials
  ({ kq with conn := kdbStop kq.conn }, r.1, r.2)

/-- C8: `stop()` on an already-stopped session (no owned or discovered
process for the port, no live connection) succeeds and the supervisor
reports the nothing-was-stopped indicator `false`, leaving session and
registry untouched; whenever a process is found — owned or discovered — the
supervisor reports `true` and drops the registry entry; and the outcome
never depends on whether the process or its children were still alive when
the kill reached them, so a process that exited between detection and kill
is success, not an error. -/
theorem stop_idempotent_spec (env : ProcEnv) (reg : List (Credentials × Nat))
    (kq : KQ) (hconn : kq.conn = false)
    (hown : registryLookup reg kq.credentials = none)
    (hrun : env.running kq.credentials.port = none) :
    KQ.stop env reg kq = (kq, false, reg) ∧
    (∀ env2 reg2 pid,
        ownedOrDiscovered env2 reg2 kq.credentials = some pid →
        qStop env2 reg2 kq.credentials =
          (true, registryRemove reg2 kq.credentials)) ∧
    (∀ run ch1 ch2 al1 al2 reg2,
        qStop ⟨run, ch1, al1⟩ reg2 kq.credentials =
          qStop ⟨run, ch2, al2⟩ reg2 kq.credentials) := by
  have hnone : ownedOrDiscovered env reg kq.credentials = none := by
    unfold ownedOrDiscovered
    rw [hown, hrun]
  refine ⟨?_, fun env2 reg2 pid h => ?_, fun run ch1 ch2 al1 al2 reg2 => ?_⟩
  · unfold KQ.stop qStop
    rw [hnone]
    cases kq with
    | mk c l co =>
        simp only at hconn
        simp [kdbStop, hconn]
  · unfold qStop
    rw [h]
  · unfold qStop ownedOrDiscovered
    cases registryLookup reg2 kq.credentials with
    | none =>
        cases run kq.credentials.port with
        | none => rfl
        | some pid => rfl
    | some pid => rfl

/-- C8 witness: stopping a session with an empty registry, no process on the
port and no connection. -/
theorem stop_idempotent_spec_witness :
    KQ.stop ⟨fun _ => none, fun _ => .ok [], fun _ => true⟩ []
        ⟨Credentials.mkFixed "h" 1 "u" "", [], false⟩ =
      (⟨Credentials.mkFixed "h" 1 "u" "", [], false⟩, false, []) :=
  (stop_idempotent_spec ⟨fun _ => none, fun _ => .ok [], fun _ => true⟩ []
    ⟨Credentials.mkFixed "h" 1 "u" "", [], false⟩ rfl rfl rfl).1

/-- C10: `stop()` leaves the session's loaded-files set unchanged, and so
does a subsequent successful `start()`: a path whose canonical form was
already recorded stays recorded, and `read_kdb` of it against the freshly
started process is still a no-op that returns none and issues no load
directive. -/
theorem stop_preserves_loaded (canon : String → String)
    (server : String → Option Val) (env : ProcEnv)
    (reg : List (Credentials × Nat)) (busy : Nat → Bool)
    (kq kq2 : KQ) (f : String)
    (hmem : canon f ∈ kq.loaded)
    (hstart : KQ.start busy (KQ.stop env reg kq).1 = .ok kq2) :
    (KQ.stop env reg kq).1.loaded = kq.loaded ∧
    kq2.loaded = kq.loaded ∧
    KQ.read_kdb canon server kq2 f = .ok (none, [], kq2) := by
  have h2 : kq2.loaded = kq.loaded := by
    unfold KQ.start at hstart
    split at hstart
    · exact Except.noConfusion hstart
    · rw [← Except.ok.inj hstart]
      rfl
  refine ⟨rfl, h2, ?_⟩
  have hmem2 : canon f ∈ kq2.loaded := h2 ▸ hmem
  unfold KQ.read_kdb
  rw [if_pos hmem2]

/-- C10 witness: a loaded path survives a stop/start cycle on a concrete
session. -/
theorem stop_preserves_loaded_witness :
    (KQ.stop ⟨fun _ => none, fun _ => .ok [], fun _ => true⟩ []
        ⟨Credentials.mkFixed "h" 1 "u" "", ["/a.q"], false⟩).1.loaded = ["/a.q"] ∧
    (⟨Credentials.mkFixed "h" 1 "u" "", ["/a.q"], true⟩ : KQ).loaded = ["/a.q"] ∧
    KQ.read_kdb (fun s => s) (fun _ => none)
        ⟨Credentials.mkFixed "h" 1 "u" "", ["/a.q"], true⟩ "/a.q" =
      .ok (none, [], ⟨Credentials.mkFixed "h" 1 "u" "", ["/a.q"], true⟩) :=
  stop_preserves_loaded (fun s => s) (fun _ => none)
    ⟨fun _ => none, fun _ => .ok [], fun _ => true⟩ [] (fun _ => false)
    ⟨Credentials.mkFixed "h" 1 "u" "", ["/a.q"], false⟩
    ⟨Credentials.mkFixed "h" 1 "u" "", ["/a.q"], true⟩ "/a.q"
    (by simp)
    (by unfold KQ.start
        rw [kqStart]
        rfl)
